import Mathlib

/-!
Verification of the RecruitPulse extension's orchestration pipeline.

Shallow embedding of the relevant source functions:
* `utils/helpers.js` — `generateJobId`, `retry`, `getDomainGroup`
* `utils/api.js` — `sendJobToAPI`
* `background.js` — `handleStartQueue`, `runQueue`, `processSingleJob`,
  `processJobFlow`, `finishQueue`

Strings are modelled over their UTF-16 code units via `Char.toNat`
(faithful for the Basic Multilingual Plane); JavaScript 32-bit signed
integer arithmetic is modelled on `Int` with explicit wrapping.
-/

set_option maxRecDepth 100000

namespace RecruitPulse

/-! ## Fingerprint (`generateJobId`, helpers.js lines 68–77) -/

/-- Whitespace predicate used by `String.prototype.trim` (ASCII range). -/
def isJsWhitespace (c : Char) : Bool :=
  decide (c.toNat = 32 ∨ c.toNat = 9 ∨ c.toNat = 10 ∨ c.toNat = 13 ∨
    c.toNat = 11 ∨ c.toNat = 12)

/-- JavaScript `String.prototype.trim`: drop leading and trailing whitespace. -/
def jsTrim (l : List Char) : List Char :=
  ((l.dropWhile isJsWhitespace).reverse.dropWhile isJsWhitespace).reverse

/-- `s.trim()` at the `String` level. -/
def jsTrimStr (s : String) : String := ⟨jsTrim s.data⟩

/-- `s.toLowerCase()` over the ASCII range, as in the inputs of interest;
`Char.toLower` implements exactly the A–Z ↦ a–z mapping. -/
def jsToLowerStr (s : String) : String := ⟨s.data.map Char.toLower⟩

/-- JavaScript `| 0`: wrap an integer to a signed 32-bit value. -/
def toInt32 (n : Int) : Int := (n + 2147483648) % 4294967296 - 2147483648

/-- One iteration of the hash loop:
`hash = (hash << 5) - hash + char; hash |= 0`.
`hash << 5` itself wraps to 32 bits, hence the inner `toInt32`. -/
def hashStep (h : Int) (c : Char) : Int :=
  toInt32 (toInt32 (h * 32) - h + c.toNat)

/-- The accumulated string hash of `generateJobId`. -/
def jsHash (l : List Char) : Int := l.foldl hashStep 0

/-- `title.trim().toLowerCase()` as a list of characters. -/
def jsNormalize (s : String) : List Char := (jsTrim s.data).map Char.toLower

/-- `generateJobId` (helpers.js): hash of
`` `${title.trim().toLowerCase()}::${company.trim().toLowerCase()}` ``,
rendered as `job_` followed by the absolute value of the 32-bit hash. -/
def generateJobId (title company : String) : String :=
  "job_" ++ toString (jsHash (jsNormalize title ++ [':', ':'] ++ jsNormalize company)).natAbs

/-! ## Domain routing (`getDomainGroup`, helpers.js lines 230–239) -/

/-- JavaScript `String.prototype.includes` on character lists. -/
def jsIncludes (pat : List Char) : List Char → Bool
  | [] => pat.isEmpty
  | a :: t => pat.isPrefixOf (a :: t) || jsIncludes pat t

/-- Split a character list at the first colon, if any. -/
def splitAtColon : List Char → Option (List Char × List Char)
  | [] => none
  | c :: t =>
    if c = ':' then some ([], t)
    else
      match splitAtColon t with
      | some (a, b) => some (c :: a, b)
      | none => none

/-- Modelled from the platform `URL` constructor (simplified to the inputs
of interest): accepts `scheme://host...` with a nonempty all-letter scheme
and a nonempty host (the host ends at the first `/`, `:`, `?` or `#`), and
returns the host; returns `none` — the constructor throws — otherwise.
In particular the empty string has no colon and is rejected. -/
def parseHostname (url : String) : Option (List Char) :=
  match splitAtColon url.data with
  | none => none
  | some (scheme, rest) =>
    if scheme.isEmpty then none
    else if !(scheme.all Char.isAlpha) then none
    else
      match rest with
      | '/' :: '/' :: rest2 =>
        let host := rest2.takeWhile fun c =>
          !(c == '/' || c == ':' || c == '?' || c == '#')
        if host.isEmpty then none else some host
      | _ => none

/-- `getDomainGroup` (helpers.js): route a URL to an extractor family; any
URL-parse failure is caught and mapped to `"generic"`. -/
def getDomainGroup (url : String) : String :=
  match parseHostname url with
  | none => "generic"
  | some host =>
    let h := host.map Char.toLower
    if jsIncludes "linkedin.com".data h then "linkedin"
    else if jsIncludes "indeed.com".data h then "indeed"
    else "generic"

/-! ## Retry with exponential backoff (`retry`, helpers.js lines 44–57;
`MAX_RETRIES = 3`, `RETRY_BASE_DELAY_MS = 1000` in constants.js) -/

/-- Observable trace of one `retry` invocation: the final outcome (the
thrown error is `none` only in the degenerate `maxRetries = 0` case, where
the JS code throws `undefined`), the number of calls made to `fn`, and the
sleeps performed, in order. -/
structure RetryTrace (ε α : Type) where
  result : Except (Option ε) α
  calls : Nat
  sleeps : List Nat

/-- The `for (attempt = 1; attempt <= maxRetries; attempt++)` loop of
`retry`: `fn attempt` is the outcome of the attempt-th call; after a
failure the delay `baseDelayMs * 2 ^ (attempt - 1)` is slept only when
`attempt < maxRetries`. -/
def retryAux {ε α : Type} (fn : Nat → Except ε α) (maxRetries baseDelayMs : Nat) :
    Nat → Nat → Option ε → RetryTrace ε α
  | 0, _, lastErr => ⟨.error lastErr, 0, []⟩
  | r + 1, attempt, _ =>
    match fn attempt with
    | .ok a => ⟨.ok a, 1, []⟩
    | .error e =>
      let rest := retryAux fn maxRetries baseDelayMs r (attempt + 1) (some e)
      ⟨rest.result, rest.calls + 1,
        (if attempt < maxRetries then [baseDelayMs * 2 ^ (attempt - 1)] else []) ++
          rest.sleeps⟩

/-- `retry(fn, maxRetries, baseDelayMs)`. -/
def retryModel {ε α : Type} (fn : Nat → Except ε α) (maxRetries baseDelayMs : Nat) :
    RetryTrace ε α :=
  retryAux fn maxRetries baseDelayMs maxRetries 1 none

/-! ## Submission client (`sendJobToAPI`, api.js lines 28–72) -/

/-- The result object `sendJobToAPI` resolves with. -/
structure ApiResult where
  success : Bool
  error : Option String
  deriving DecidableEq

/-- `sendJobToAPI`: wraps `retry(fn, MAX_RETRIES, RETRY_BASE_DELAY_MS)` in
a try/catch and always returns a result object — `{success: false, error}`
when the retries are exhausted, never a thrown exception. `fn attempt` is
the outcome of the attempt-th POST. -/
def sendJobToAPIModel {α : Type} (fn : Nat → Except String α) : ApiResult :=
  match (retryModel fn 3 1000).result with
  | .ok _ => ⟨true, none⟩
  | .error e => ⟨false, e⟩

/-! ## Orchestrator state machine (background.js)

The service worker's global mutable state and the per-item pipeline.
Asynchrony is modelled by a deterministic environment `Env` giving the
outcome of every external interaction for each row index, and an event
trace `List Ev` recording the observable actions, in order. -/

/-- A raw job row collected from the dashboard. -/
structure RawJob where
  title : String
  company : String
  status : String
  deriving DecidableEq

/-- The detail-popup fields returned by the dashboard content script. -/
structure PopupData where
  title : String
  company : String
  hiringManager : String
  shortDescription : String
  viewFullPostUrl : String
  deriving DecidableEq

/-- Fields scraped from the external job page. -/
structure ExternalData where
  fullDescription : String
  applyEmail : String
  location : String
  experience : String
  deriving DecidableEq

/-- `let externalData = { fullDescription: '', applyEmail: '', location: '',
experience: '' }` — the defaults in force when extraction fails or returns
an empty result. -/
def emptyExternal : ExternalData := ⟨"", "", "", ""⟩

/-- Email-template fields from the dashboard popup. -/
structure EmailData where
  emailSubject : String
  emailBody : String
  deriving DecidableEq

/-- `let emailData = { emailSubject: '', emailBody: '' }`. -/
def emptyEmail : EmailData := ⟨"", ""⟩

/-- The merged record (`jobPayload`) persisted and submitted; the
`processedAt` timestamp is not modelled. -/
structure JobPayload where
  jobId : String
  title : String
  company : String
  hiringManager : String
  shortDescription : String
  viewFullPostUrl : String
  fullDescription : String
  applyEmail : String
  location : String
  experience : String
  emailSubject : String
  emailBody : String
  source : String
  jdResumeBuilt : Bool
  deriving DecidableEq

/-- Service-worker globals (background.js lines 24–38) together with the
parts of `chrome.storage.local` the pipeline touches (`scrapedJobs`,
`PROCESSED_IDS`, `STATS`, `QUEUE_ACTIVE`) and the set of auxiliary tabs
currently open (one per row index). -/
structure St where
  queue : List RawJob
  isRunning : Bool
  stopRequested : Bool
  processedCount : Nat
  failedCount : Nat
  isProcessing : Bool
  scrapedJobs : List JobPayload
  processedIds : List String
  statsSuccess : Nat
  statsFailed : Nat
  openTabs : List Nat
  queueActive : Bool
  deriving DecidableEq

/-- Deterministic environment: the outcome of each external interaction,
indexed by row index. `stopDuring i` records whether a stop command
arrives while item `i` is in flight. -/
structure Env where
  dashboardFound : Bool
  collectOk : Bool
  collectedJobs : List RawJob
  simulateOk : Nat → Bool
  popupResult : Nat → Except String PopupData
  tabCreateOk : Nat → Bool
  tabLoadOk : Nat → Bool
  externalResult : Nat → Option ExternalData
  emailResult : Nat → Except String EmailData
  apiOk : Nat → Bool
  stopDuring : Nat → Bool

/-- Observable events of a run, in order of occurrence. -/
inductive Ev where
  | started (i : Nat)
  | createdTab (i : Nat)
  | closeAttempt (i : Nat)
  | persisted (i : Nat)
  | submitted (i : Nat) (ok : Bool)
  | apiWarn (i : Nat)
  | slept (i : Nat)
  | stoppedMsg
  | phase2
  deriving DecidableEq

/-- Result of a per-item step: the state after it, the thrown error if
any (state mutations made before the throw are kept), and the events. -/
structure FlowOut where
  st : St
  err : Option String
  evs : List Ev
  deriving DecidableEq

/-- JavaScript `a || b` on strings: the empty string is falsy. -/
def jsOr (a b : String) : String := if a = "" then b else a

/-- The merged record built at step 5 of `processJobFlow` (background.js
lines 377–393). -/
def mergedPayload (jobId : String) (rawJob : RawJob) (popupData : PopupData)
    (externalData : ExternalData) (emailData : EmailData) : JobPayload where
  jobId := jobId
  title := jsOr popupData.title (jsOr rawJob.title "")
  company := jsOr popupData.company (jsOr rawJob.company "")
  hiringManager := jsOr popupData.hiringManager ""
  shortDescription := jsOr popupData.shortDescription ""
  viewFullPostUrl := popupData.viewFullPostUrl
  fullDescription := jsOr externalData.fullDescription ""
  applyEmail := jsOr externalData.applyEmail "not-provided"
  location := jsOr externalData.location ""
  experience := jsOr externalData.experience ""
  emailSubject := jsOr emailData.emailSubject ""
  emailBody := jsOr emailData.emailBody ""
  source := getDomainGroup popupData.viewFullPostUrl
  jdResumeBuilt := false

/-- The email data actually merged: extraction failure degrades to the
defaults (background.js lines 366–374). -/
def emailOf (env : Env) (i : Nat) : EmailData :=
  match env.emailResult i with
  | .ok d => d
  | .error _ => emptyEmail

/-- `processJobFlow` (background.js lines 297–417): simulate click,
extract popup data, resolve the required URL, open and await the external
tab, scrape it (degradable, tab closed in a `finally`), extract the email
template (degradable), merge, save to local storage, submit to the API
(failure only logs a warning). -/
def processJobFlow (env : Env) (i : Nat) (jobId : String) (rawJob : RawJob)
    (s : St) : FlowOut :=
  if !(env.simulateOk i) then
    ⟨s, some "Failed to simulate click", []⟩
  else
    match env.popupResult i with
    | .error e => ⟨s, some ("Popup extraction failed: " ++ e), []⟩
    | .ok popupData =>
      if popupData.viewFullPostUrl = "" then
        ⟨s, some "No View Full Post URL found in popup", []⟩
      else if !(env.tabCreateOk i) then
        ⟨s, some "Failed to open/load external tab", []⟩
      else
        -- the tab is created first; only then is its load awaited, and a
        -- load timeout throws without reaching the close step
        let s1 : St := { s with openTabs := s.openTabs ++ [i] }
        if !(env.tabLoadOk i) then
          ⟨s1, some "Failed to open/load external tab", [.createdTab i]⟩
        else
          let externalData := (env.externalResult i).getD emptyExternal
          -- `finally`: the tab close is attempted in every case
          let s2 : St := { s1 with openTabs := s1.openTabs.filter (fun t => t ≠ i) }
          let payload := mergedPayload jobId rawJob popupData externalData (emailOf env i)
          -- save to local storage, replacing any record with the same id
          let s3 : St := { s2 with
            scrapedJobs := s2.scrapedJobs.filter (fun j => j.jobId ≠ jobId) ++ [payload] }
          ⟨s3, none,
            [.createdTab i, .closeAttempt i, .persisted i, .submitted i (env.apiOk i)] ++
              (if env.apiOk i then [] else [.apiWarn i])⟩

/-- `processSingleJob` (background.js lines 282–293): the sequential lock.
When `isProcessing` is already held the call returns immediately without
doing anything; otherwise the lock is taken, the flow runs,
`markAsProcessed`/`updateStats('success')` run on success, and the lock is
released in a `finally` whether the flow threw or not. -/
def processSingleJob (env : Env) (i : Nat) (jobId : String) (rawJob : RawJob)
    (s : St) : FlowOut :=
  if s.isProcessing then ⟨s, none, []⟩
  else
    let out := processJobFlow env i jobId rawJob { s with isProcessing := true }
    match out.err with
    | none =>
      ⟨{ out.st with
          processedIds :=
            if jobId ∈ out.st.processedIds then out.st.processedIds
            else out.st.processedIds ++ [jobId]
          statsSuccess := out.st.statsSuccess + 1
          isProcessing := false }, none, out.evs⟩
    | some e => ⟨{ out.st with isProcessing := false }, some e, out.evs⟩

/-- `finishQueue` (background.js lines 671–682). -/
def finishQueue (s : St) : St :=
  { s with
    isRunning := false
    stopRequested := false
    queue := []
    queueActive := false }

/-- The tail of `runQueue` after the item loop: Phase 2 (resume builder)
is entered only if stop was not requested, then `finishQueue` runs. Phase
2's internals are not modelled beyond its entry event. -/
def afterLoop (s : St) : St × List Ev :=
  (finishQueue s, if s.stopRequested then [] else [.phase2])

/-- The id computed for row `i`:
`generateJobId(rawJob.title || job_i, rawJob.company || 'unknown')`. -/
def loopJobId (job : RawJob) (i : Nat) : String :=
  generateJobId (jsOr job.title ("job_" ++ toString i)) (jsOr job.company "unknown")

/-- The state after one iteration of the `runQueue` loop body on row `i`:
run the locked per-item routine, bump the success or failure counters
(plus `updateStats('failed')` on failure), then absorb any stop command
that arrived while the item was in flight. -/
def stepSt (env : Env) (i : Nat) (job : RawJob) (s : St) : St :=
  let out := processSingleJob env i (loopJobId job i) job s
  let s1 := match out.err with
    | none => { out.st with processedCount := out.st.processedCount + 1 }
    | some _ => { out.st with
        failedCount := out.st.failedCount + 1
        statsFailed := out.st.statsFailed + 1 }
  { s1 with stopRequested := s1.stopRequested || env.stopDuring i }

/-- The item loop of `runQueue` (background.js lines 212–278): the stop
flag is read at the top of each iteration; after processing, the fixed
inter-item delay is taken only when the item is not the last and stop has
not been requested. -/
def runLoop (env : Env) : List RawJob → Nat → St → St × List Ev
  | [], _, s => afterLoop s
  | job :: rest, i, s =>
    if s.stopRequested then
      ((afterLoop s).1, .stoppedMsg :: (afterLoop s).2)
    else
      let s2 := stepSt env i job s
      let r := runLoop env rest (i + 1) s2
      (r.1,
        (.started i :: (processSingleJob env i (loopJobId job i) job s).evs) ++
          (if rest.isEmpty || s2.stopRequested then [] else [.slept i]) ++ r.2)

/-- `runQueue` iterates the collected queue from index 0. -/
def runQueue (env : Env) (s : St) : St × List Ev := runLoop env s.queue 0 s

/-- `handleStartQueue` (background.js lines 135–195): ignored outright
when a run is already active; otherwise resets the run state, persists
the run-active flag, locates the dashboard, collects the queue and starts
the loop (an empty queue still enters Phase 2 before finishing). -/
def handleStartQueue (env : Env) (s : St) : St × List Ev :=
  if s.isRunning then (s, [])
  else
    let s0 : St := { s with
      isRunning := true
      stopRequested := false
      processedCount := 0
      failedCount := 0
      queueActive := true }
    if !env.dashboardFound then (finishQueue s0, [])
    else if !env.collectOk then (finishQueue s0, [])
    else
      let s1 := { s0 with queue := env.collectedJobs }
      if env.collectedJobs.isEmpty then (finishQueue s1, [.phase2])
      else runQueue env s1

/-- Row indices of per-item routines entered by the loop, in order. -/
def startedOf (evs : List Ev) : List Nat :=
  evs.filterMap fun e => match e with | .started i => some i | _ => none

/-- Row indices after which the inter-item delay was taken, in order. -/
def sleptOf (evs : List Ev) : List Nat :=
  evs.filterMap fun e => match e with | .slept i => some i | _ => none

/-! ### Status channel (`broadcastStatus` → `MSG.STATUS_UPDATE`)

`broadcastStatus` (background.js lines 816–827) sends a `STATUS_UPDATE`
message to the popup and is distinct from the console-only `log` calls
(which the `Ev.apiWarn` event models). The updates below transcribe the
`broadcastStatus` call sites on the per-item path of `runQueue` and
`processJobFlow`. -/

/-- One `MSG.STATUS_UPDATE` broadcast for item `i`, identified by its call
site; `failed` carries the error message and is the only error-level
update on the per-item path. -/
inductive StatusUpdate where
  | processing (i : Nat)
  | simulating (i : Nat)
  | openingPage (i : Nat)
  | extractingEmail (i : Nat)
  | doneOk (i : Nat)
  | failed (i : Nat) (msg : String)
  | waitingDelay (i : Nat)
  deriving DecidableEq

/-- Whether a status update is the error-level `❌ Failed` broadcast. -/
def StatusUpdate.isError : StatusUpdate → Bool
  | .failed _ _ => true
  | _ => false

/-- The `broadcastStatus` calls made inside `processJobFlow` for item `i`,
in order: `🖱️ Simulating interaction…` on entry (line 300), `🌐 Opening
page…` once the target URL is resolved (line 329), and `📧 Extracting
email template…` once the auxiliary tab has been dealt with (line 367).
Storage and API failures are console-logged only and broadcast nothing. -/
def flowStatusUpdates (env : Env) (i : Nat) : List StatusUpdate :=
  .simulating i ::
    (if !(env.simulateOk i) then []
     else
       match env.popupResult i with
       | .error _ => []
       | .ok pd =>
         if pd.viewFullPostUrl = "" then []
         else
           .openingPage i ::
             (if !(env.tabCreateOk i) then []
              else if !(env.tabLoadOk i) then []
              else [.extractingEmail i]))

/-- The status-channel traffic for one iteration of the `runQueue` loop
body on item `i`: `⚙️ Processing…` (line 244), the flow's own updates,
then `✅ Done` (success level, line 250) or `❌ Failed — msg` (error
level, line 255) according to the outcome of `processSingleJob`. -/
def itemStatusUpdates (env : Env) (i : Nat) (jobId : String) (job : RawJob)
    (s : St) : List StatusUpdate :=
  (.processing i :: (if s.isProcessing then [] else flowStatusUpdates env i)) ++
    (match (processSingleJob env i jobId job s).err with
     | none => [.doneOk i]
     | some m => [.failed i m])

/-! ### Concrete run configurations used by the scenario claims -/

/-- Popup data with a resolvable target URL. -/
def pd1 : PopupData :=
  ⟨"Backend Engineer", "Acme Inc", "Jane Doe", "short desc", "http://example.com/post/1"⟩

/-- Popup data with no `View Full Post` URL. -/
def pd2 : PopupData := ⟨"Data Engineer", "Beta LLC", "", "", ""⟩

def job1 : RawJob := ⟨"Backend Engineer", "Acme Inc", "New"⟩

def job2 : RawJob := ⟨"Data Engineer", "Beta LLC", "New"⟩

def jobs2 : List RawJob := [job1, job2]

/-- Fully idle initial state: empty queue and storage, no flags set. -/
def st0 : St := ⟨[], false, false, 0, 0, false, [], [], 0, 0, [], false⟩

def stRun : St := { st0 with isRunning := true }

def stProc : St := { st0 with isProcessing := true }

def stQueue2 : St := { st0 with queue := jobs2 }

def ext1 : ExternalData := ⟨"full description", "hr@acme.example", "Remote", "3 years"⟩

/-- Environment in which every interaction succeeds. -/
def envBase : Env where
  dashboardFound := true
  collectOk := true
  collectedJobs := jobs2
  simulateOk := fun _ => true
  popupResult := fun _ => .ok pd1
  tabCreateOk := fun _ => true
  tabLoadOk := fun _ => true
  externalResult := fun _ => some ext1
  emailResult := fun _ => .ok ⟨"subject", "body"⟩
  apiOk := fun _ => true
  stopDuring := fun _ => false

/-- Item 0 succeeds end-to-end; item 1 has no target URL. -/
def envC6 : Env :=
  { envBase with popupResult := fun i => if i = 0 then .ok pd1 else .ok pd2 }

/-- A stop command arrives while every item is in flight. -/
def envC3 : Env := { envBase with stopDuring := fun _ => true }

/-- The API submission fails for item 0 and succeeds afterwards. -/
def envC5 : Env := { envBase with apiOk := fun i => i != 0 }

/-- Auxiliary extraction fails on every item. -/
def envC7 : Env := { envBase with externalResult := fun _ => none }

/-- The auxiliary tab is created but its load wait times out. -/
def envC8 : Env := { envBase with tabLoadOk := fun _ => false }


/-! ### List/Char lemmas for the normalization -/

theorem dropWhile_head_false {α : Type} {p : α → Bool} {l : List α} {a : α}
    (h : (l.dropWhile p).head? = some a) : p a = false := by
  have := List.head?_dropWhile_not p l
  rw [h] at this
  exact this

theorem dropWhile_eq_self_of_head {α : Type} {p : α → Bool} {l : List α}
    (h : ∀ a, l.head? = some a → p a = false) : l.dropWhile p = l := by
  cases l with
  | nil => rfl
  | cons a t =>
    rw [List.dropWhile_cons, h a rfl]
    simp

theorem getLast?_dropWhile {α : Type} {p : α → Bool} (l : List α)
    (h : l.dropWhile p ≠ []) : (l.dropWhile p).getLast? = l.getLast? := by
  induction l with
  | nil => simp [List.dropWhile_nil] at h
  | cons a t ih =>
    by_cases hp : p a
    · rw [List.dropWhile_cons_of_pos hp] at h ⊢
      rw [ih h]
      have ht : t ≠ [] := by
        intro he
        rw [he] at h
        simp [List.dropWhile_nil] at h
      cases t with
      | nil => exact absurd rfl ht
      | cons b u => simp [List.getLast?_cons_cons]
    · rw [List.dropWhile_cons_of_neg hp]

theorem jsTrim_idem (l : List Char) : jsTrim (jsTrim l) = jsTrim l := by
  unfold jsTrim
  set p := isJsWhitespace with hp
  set A := l.dropWhile p with hA
  set B := A.reverse.dropWhile p with hB
  have step1 : B.reverse.dropWhile p = B.reverse := by
    apply dropWhile_eq_self_of_head
    intro a ha
    rw [List.head?_reverse] at ha
    by_cases hBe : B = []
    · rw [hBe] at ha
      simp at ha
    · rw [hB, getLast?_dropWhile _ (hB ▸ hBe), List.getLast?_reverse] at ha
      exact dropWhile_head_false ha
  have step3 : B.dropWhile p = B := by
    apply dropWhile_eq_self_of_head
    intro a ha
    exact dropWhile_head_false (hB ▸ ha)
  rw [step1, List.reverse_reverse, step3]

theorem toNat_ofNat_valid (n : Nat) (h : n.isValidChar) :
    (Char.ofNat n).toNat = n := by
  rw [Char.ofNat, dif_pos h]
  rfl

theorem toNat_toLower (c : Char) :
    (Char.toLower c).toNat =
      if 65 ≤ c.toNat ∧ c.toNat ≤ 90 then c.toNat + 32 else c.toNat := by
  unfold Char.toLower
  by_cases h : 65 ≤ c.toNat ∧ c.toNat ≤ 90
  · rw [if_pos h, if_pos h]
    exact toNat_ofNat_valid _ (Or.inl (by omega))
  · rw [if_neg h, if_neg h]

theorem toLower_eq_self (x : Char) (h : ¬ (65 ≤ x.toNat ∧ x.toNat ≤ 90)) :
    Char.toLower x = x := by
  unfold Char.toLower
  rw [if_neg h]

theorem ws_toLower (c : Char) :
    isJsWhitespace (Char.toLower c) = isJsWhitespace c := by
  have h := toNat_toLower c
  by_cases hc : 65 ≤ c.toNat ∧ c.toNat ≤ 90
  · rw [if_pos hc] at h
    simp only [isJsWhitespace, h]
    exact decide_eq_decide.mpr (by omega)
  · rw [if_neg hc] at h
    simp only [isJsWhitespace, h]

theorem toLower_toLower (c : Char) :
    Char.toLower (Char.toLower c) = Char.toLower c := by
  by_cases hc : 65 ≤ c.toNat ∧ c.toNat ≤ 90
  · have h1 := toNat_toLower c
    rw [if_pos hc] at h1
    exact toLower_eq_self _ (by omega)
  · rw [toLower_eq_self _ hc, toLower_eq_self _ hc]

theorem jsTrim_map_toLower (l : List Char) :
    jsTrim (l.map Char.toLower) = (jsTrim l).map Char.toLower := by
  have hpf : (fun c => isJsWhitespace (Char.toLower c)) = isJsWhitespace :=
    funext ws_toLower
  unfold jsTrim
  rw [List.dropWhile_map, show isJsWhitespace ∘ Char.toLower =
        isJsWhitespace from funext ws_toLower,
      ← List.map_reverse, List.dropWhile_map,
      show isJsWhitespace ∘ Char.toLower = isJsWhitespace from funext ws_toLower,
      ← List.map_reverse]

theorem jsNormalize_trim (s : String) :
    jsNormalize (jsTrimStr s) = jsNormalize s := by
  show (jsTrim (jsTrim s.data)).map Char.toLower = (jsTrim s.data).map Char.toLower
  rw [jsTrim_idem]

theorem jsNormalize_toLower (s : String) :
    jsNormalize (jsToLowerStr s) = jsNormalize s := by
  show (jsTrim (s.data.map Char.toLower)).map Char.toLower
      = (jsTrim s.data).map Char.toLower
  rw [jsTrim_map_toLower, List.map_map,
    show Char.toLower ∘ Char.toLower = Char.toLower from funext toLower_toLower]

/-- C1: the fingerprint is a deterministic function of the normalized
inputs: trimming leading/trailing whitespace and case-folding either input
does not change the resulting id, and in particular
`generateJobId "Backend Engineer" "Acme Inc"`
equals `generateJobId " backend engineer " "ACME INC"`. -/
theorem claim_C1_fingerprint_determinism :
    (∀ t c : String, generateJobId (jsTrimStr t) (jsTrimStr c) = generateJobId t c) ∧
    (∀ t c : String, generateJobId (jsToLowerStr t) (jsToLowerStr c) = generateJobId t c) ∧
    generateJobId "Backend Engineer" "Acme Inc" =
      generateJobId " backend engineer " "ACME INC" := by
  refine ⟨?_, ?_, ?_⟩
  · intro t c
    unfold generateJobId
    rw [jsNormalize_trim, jsNormalize_trim]
  · intro t c
    unfold generateJobId
    rw [jsNormalize_toLower, jsNormalize_toLower]
  · decide

/-- C9 counterexample: the fingerprint is NOT order-independent in its two
arguments; swapping title and company changes the id already at
`("a", "b")`. -/
theorem claim_C9_counterexample :
    ¬ generateJobId "a" "b" = generateJobId "b" "a" := by decide

/-- C9 amended: the fingerprint depends on the order of its two arguments:
there are inputs with `generateJobId t c ≠ generateJobId c t` (the hash is
taken over the ordered concatenation `title::company`). -/
theorem claim_C9_order_dependent :
    ∃ t c : String, generateJobId t c ≠ generateJobId c t :=
  ⟨"a", "b", by decide⟩

/-- C10: `getDomainGroup` is total and never throws — for every input it
returns exactly one of `linkedin`, `indeed`, `generic`; any input on which
the URL constructor throws (modelled: `parseHostname` returns `none`),
including the empty string, yields `generic` through the catch branch. -/
theorem claim_C10_getDomainGroup_total :
    (∀ url : String,
      getDomainGroup url = "linkedin" ∨ getDomainGroup url = "indeed" ∨
        getDomainGroup url = "generic") ∧
    (∀ url : String, parseHostname url = none → getDomainGroup url = "generic") ∧
    getDomainGroup "" = "generic" := by
  refine ⟨?_, ?_, ?_⟩
  · intro url
    unfold getDomainGroup
    cases parseHostname url with
    | none => right; right; rfl
    | some host =>
      by_cases h1 : jsIncludes "linkedin.com".data (host.map Char.toLower) = true
      · left
        simp [h1]
      · by_cases h2 : jsIncludes "indeed.com".data (host.map Char.toLower) = true
        · right; left
          simp [h1, h2]
        · right; right
          simp [h1, h2]
  · intro url h
    unfold getDomainGroup
    rw [h]
  · rfl

/-- Witness for C10: a concrete unparseable input takes the catch branch. -/
theorem claim_C10_witness : getDomainGroup "not a url" = "generic" :=
  claim_C10_getDomainGroup_total.2.1 "not a url" (by decide)

theorem retryAux_calls_le {ε α : Type} (fn : Nat → Except ε α)
    (maxRetries baseDelayMs : Nat) :
    ∀ r attempt lastErr,
      (retryAux fn maxRetries baseDelayMs r attempt lastErr).calls ≤ r := by
  intro r
  induction r with
  | zero => intro attempt lastErr; exact Nat.le_refl 0
  | succ n ih =>
    intro attempt lastErr
    unfold retryAux
    cases h : fn attempt with
    | ok a => simp [h]
    | error e =>
      simp only [h]
      exact Nat.succ_le_succ (ih (attempt + 1) (some e))

/-- With three straight failures, `retry fn 3 1000` makes exactly three
calls, sleeps 1000 ms then 2000 ms, and throws the third error. -/
theorem retryModel_exhaust {α : Type} (fn : Nat → Except String α)
    (e1 e2 e3 : String) (h1 : fn 1 = .error e1) (h2 : fn 2 = .error e2)
    (h3 : fn 3 = .error e3) :
    retryModel fn 3 1000 = ⟨.error (some e3), 3, [1000, 2000]⟩ := by
  simp [retryModel, retryAux, h1, h2, h3]

/-- C4: with `maxRetries = 3` and base delay 1000 ms, `retry` invokes the
submission function at most 3 times; when all three attempts fail it
sleeps 1000 ms after the first failure and 2000 ms after the second, then
throws the last error — exactly 3 calls and exactly those two sleeps. -/
theorem claim_C4_retry_policy {α : Type} :
    (∀ fn : Nat → Except String α, (retryModel fn 3 1000).calls ≤ 3) ∧
    (∀ (fn : Nat → Except String α) (e1 e2 e3 : String),
      fn 1 = .error e1 → fn 2 = .error e2 → fn 3 = .error e3 →
      retryModel fn 3 1000 = ⟨.error (some e3), 3, [1000, 2000]⟩) := by
  constructor
  · intro fn
    exact retryAux_calls_le fn 3 1000 3 1 none
  · intro fn e1 e2 e3 h1 h2 h3
    exact retryModel_exhaust fn e1 e2 e3 h1 h2 h3

/-- Witness for C4 at a concrete always-failing submission function. -/
theorem claim_C4_witness :
    (retryModel (fun _ => (Except.error "boom" : Except String Unit)) 3 1000).calls ≤ 3 ∧
    retryModel (fun _ => (Except.error "boom" : Except String Unit)) 3 1000
      = ⟨Except.error (some "boom"), 3, [1000, 2000]⟩ :=
  ⟨claim_C4_retry_policy.1 _, claim_C4_retry_policy.2 _ "boom" "boom" "boom" rfl rfl rfl⟩
/-! ### Per-item flow lemmas -/

theorem startedOf_append (a b : List Ev) :
    startedOf (a ++ b) = startedOf a ++ startedOf b :=
  List.filterMap_append a b _

theorem sleptOf_append (a b : List Ev) :
    sleptOf (a ++ b) = sleptOf a ++ sleptOf b :=
  List.filterMap_append a b _

theorem startedOf_cons_started (i : Nat) (t : List Ev) :
    startedOf (.started i :: t) = i :: startedOf t := by
  simp [startedOf]

theorem sleptOf_cons_started (i : Nat) (t : List Ev) :
    sleptOf (.started i :: t) = sleptOf t := by
  simp [sleptOf]

theorem startedOf_slept (i : Nat) : startedOf [Ev.slept i] = [] := rfl

theorem sleptOf_slept (i : Nat) : sleptOf [Ev.slept i] = [i] := rfl

theorem processJobFlow_preserves (env : Env) (i : Nat) (jobId : String)
    (job : RawJob) (s : St) :
    (processJobFlow env i jobId job s).st.processedCount = s.processedCount ∧
    (processJobFlow env i jobId job s).st.failedCount = s.failedCount ∧
    (processJobFlow env i jobId job s).st.isProcessing = s.isProcessing ∧
    (processJobFlow env i jobId job s).st.stopRequested = s.stopRequested := by
  unfold processJobFlow
  repeat' split
  all_goals exact ⟨rfl, rfl, rfl, rfl⟩

theorem processJobFlow_evs_clean (env : Env) (i : Nat) (jobId : String)
    (job : RawJob) (s : St) :
    startedOf (processJobFlow env i jobId job s).evs = [] ∧
    sleptOf (processJobFlow env i jobId job s).evs = [] ∧
    Ev.phase2 ∉ (processJobFlow env i jobId job s).evs := by
  unfold processJobFlow
  repeat' split
  all_goals simp [startedOf, sleptOf]

theorem processSingleJob_st (env : Env) (i : Nat) (jobId : String)
    (job : RawJob) (s : St) (h : s.isProcessing = false) :
    (processSingleJob env i jobId job s).st.isProcessing = false ∧
    (processSingleJob env i jobId job s).st.processedCount = s.processedCount ∧
    (processSingleJob env i jobId job s).st.failedCount = s.failedCount ∧
    (processSingleJob env i jobId job s).st.stopRequested = s.stopRequested := by
  obtain ⟨p1, p2, p3, p4⟩ :=
    processJobFlow_preserves env i jobId job { s with isProcessing := true }
  cases ho : (processJobFlow env i jobId job { s with isProcessing := true }).err with
  | none => simp [processSingleJob, h, ho, p1, p2, p3, p4]
  | some e => simp [processSingleJob, h, ho, p1, p2, p3, p4]

theorem processSingleJob_evs_clean (env : Env) (i : Nat) (jobId : String)
    (job : RawJob) (s : St) :
    startedOf (processSingleJob env i jobId job s).evs = [] ∧
    sleptOf (processSingleJob env i jobId job s).evs = [] ∧
    Ev.phase2 ∉ (processSingleJob env i jobId job s).evs := by
  obtain ⟨e1, e2, e3⟩ :=
    processJobFlow_evs_clean env i jobId job { s with isProcessing := true }
  by_cases h : s.isProcessing
  · simp [processSingleJob, h, startedOf, sleptOf]
  · cases ho : (processJobFlow env i jobId job { s with isProcessing := true }).err with
    | none => simp [processSingleJob, h, ho, e1, e2, e3]
    | some e => simp [processSingleJob, h, ho, e1, e2, e3]

theorem stepSt_facts (env : Env) (i : Nat) (job : RawJob) (s : St)
    (h : s.isProcessing = false) :
    (stepSt env i job s).processedCount + (stepSt env i job s).failedCount
      = s.processedCount + s.failedCount + 1 ∧
    (stepSt env i job s).stopRequested = (s.stopRequested || env.stopDuring i) ∧
    (stepSt env i job s).isProcessing = false := by
  obtain ⟨q1, q2, q3, q4⟩ := processSingleJob_st env i (loopJobId job i) job s h
  cases ho : (processSingleJob env i (loopJobId job i) job s).err with
  | none =>
    refine ⟨?_, ?_, ?_⟩
    · simp [stepSt, ho, q2, q3]
      omega
    · simp [stepSt, ho, q4]
    · simp [stepSt, ho, q1]
  | some e =>
    refine ⟨?_, ?_, ?_⟩
    · simp [stepSt, ho, q2, q3]
      omega
    · simp [stepSt, ho, q4]
    · simp [stepSt, ho, q1]

theorem runLoop_stopped (env : Env) (jobs : List RawJob) (i : Nat) (s : St)
    (h : s.stopRequested = true) :
    startedOf (runLoop env jobs i s).2 = [] ∧
    sleptOf (runLoop env jobs i s).2 = [] ∧
    Ev.phase2 ∉ (runLoop env jobs i s).2 ∧
    (runLoop env jobs i s).1.processedCount = s.processedCount ∧
    (runLoop env jobs i s).1.failedCount = s.failedCount := by
  cases jobs <;> simp [runLoop, afterLoop, finishQueue, h, startedOf, sleptOf]

theorem cons_map_range (i n : Nat) :
    i :: (List.range n).map (fun j => i + 1 + j)
      = (List.range (n + 1)).map (fun j => i + j) := by
  rw [List.range_succ_eq_map, List.map_cons, List.map_map]
  refine congrArg₂ List.cons (by omega) (List.map_congr_left ?_)
  intro j _
  show i + 1 + j = i + Nat.succ j
  omega

/-- Core loop invariant: starting at row `i` with the stop flag clear, if a
stop command arrives during item `i + k` (and not earlier), the loop starts
exactly items `i, …, i + k`, sleeps exactly after items `i, …, i + k - 1`,
never reaches Phase 2, and records one success or failure per started
item. -/
theorem runLoop_stop_at (env : Env) :
    ∀ (jobs : List RawJob) (k i : Nat) (s : St),
      s.stopRequested = false → s.isProcessing = false →
      k < jobs.length →
      (∀ j, j < k → env.stopDuring (i + j) = false) →
      env.stopDuring (i + k) = true →
      startedOf (runLoop env jobs i s).2 = (List.range (k + 1)).map (fun j => i + j) ∧
      sleptOf (runLoop env jobs i s).2 = (List.range k).map (fun j => i + j) ∧
      Ev.phase2 ∉ (runLoop env jobs i s).2 ∧
      (runLoop env jobs i s).1.processedCount + (runLoop env jobs i s).1.failedCount
        = s.processedCount + s.failedCount + (k + 1) := by
  intro jobs
  induction jobs with
  | nil =>
    intro k i s _ _ hk
    exact absurd hk (by simp)
  | cons job rest ih =>
    intro k i s h1 h2 hk hb hs
    obtain ⟨sf1, sf2, sf3⟩ := stepSt_facts env i job s h2
    obtain ⟨pe1, pe2, pe3⟩ := processSingleJob_evs_clean env i (loopJobId job i) job s
    have hloop : runLoop env (job :: rest) i s =
        ((runLoop env rest (i + 1) (stepSt env i job s)).1,
          (Ev.started i :: (processSingleJob env i (loopJobId job i) job s).evs) ++
            (if rest.isEmpty || (stepSt env i job s).stopRequested then []
              else [Ev.slept i]) ++
            (runLoop env rest (i + 1) (stepSt env i job s)).2) := by
      simp [runLoop, h1]
    cases k with
    | zero =>
      have hstop2 : (stepSt env i job s).stopRequested = true := by
        rw [sf2, h1]
        simpa using hs
      have hcond : (if rest.isEmpty || (stepSt env i job s).stopRequested then []
          else [Ev.slept i]) = ([] : List Ev) := by
        rw [hstop2]
        simp
      obtain ⟨r1, r2, r3, r4, r5⟩ :=
        runLoop_stopped env rest (i + 1) (stepSt env i job s) hstop2
      rw [hloop]
      refine ⟨?_, ?_, ?_, ?_⟩
      · rw [startedOf_append, startedOf_append, startedOf_cons_started, pe1,
          hcond, r1]
        rw [show List.range 1 = [0] from rfl]
        simp [startedOf]
      · rw [sleptOf_append, sleptOf_append, sleptOf_cons_started, pe2, hcond, r2]
        simp [sleptOf]
      · simp [hcond, pe3, r3]
      · rw [r4, r5]
        omega
    | succ n =>
      have hd : env.stopDuring i = false := by
        have := hb 0 (Nat.succ_pos n)
        simpa using this
      have hstop2 : (stepSt env i job s).stopRequested = false := by
        rw [sf2, h1, hd]
        rfl
      have hrest : rest.isEmpty = false := by
        cases rest with
        | nil => simp at hk
        | cons a t => rfl
      have hcond : (if rest.isEmpty || (stepSt env i job s).stopRequested then []
          else [Ev.slept i]) = [Ev.slept i] := by
        rw [hstop2, hrest]
        rfl
      have hkr : n < rest.length := by
        simp at hk
        omega
      have hb' : ∀ j, j < n → env.stopDuring (i + 1 + j) = false := by
        intro j hj
        have h' := hb (j + 1) (by omega)
        rw [show i + (j + 1) = i + 1 + j by omega] at h'
        exact h'
      have hs' : env.stopDuring (i + 1 + n) = true := by
        rw [show i + 1 + n = i + (n + 1) by omega]
        exact hs
      obtain ⟨i1, i2, i3, i4⟩ :=
        ih n (i + 1) (stepSt env i job s) hstop2 sf3 hkr hb' hs'
      rw [hloop]
      refine ⟨?_, ?_, ?_, ?_⟩
      · rw [startedOf_append, startedOf_append, startedOf_cons_started, pe1,
          hcond, startedOf_slept, i1]
        simp only [List.append_nil, List.nil_append, List.cons_append]
        exact cons_map_range i (n + 1)
      · rw [sleptOf_append, sleptOf_append, sleptOf_cons_started, pe2, hcond,
          sleptOf_slept, i2]
        simp only [List.append_nil, List.nil_append, List.cons_append]
        exact cons_map_range i n
      · simp [hcond, pe3, i3]
      · rw [i4]
        omega

/-! ### Claim theorems on the orchestrator -/

/-- C2: single-flight discipline — entering `processSingleJob` while the
`isProcessing` lock is held is a no-op that returns without processing
(state unchanged, no error, no events), and a start command received
while `isRunning` is true is ignored (state unchanged, no events). -/
theorem claim_C2_single_flight :
    (∀ (env : Env) (s : St), s.isRunning = true → handleStartQueue env s = (s, [])) ∧
    (∀ (env : Env) (i : Nat) (jobId : String) (job : RawJob) (s : St),
      s.isProcessing = true → processSingleJob env i jobId job s = ⟨s, none, []⟩) := by
  constructor
  · intro env s h
    simp [handleStartQueue, h]
  · intro env i jobId job s h
    simp [processSingleJob, h]

/-- Witness for C2: the guards fire on concrete locked states. -/
theorem claim_C2_witness :
    handleStartQueue envBase stRun = (stRun, []) ∧
    processSingleJob envBase 0 "x" job1 stProc = ⟨stProc, none, []⟩ :=
  ⟨claim_C2_single_flight.1 envBase stRun rfl,
    claim_C2_single_flight.2 envBase 0 "x" job1 stProc rfl⟩

/-- C3: cooperative cancellation at item boundaries — if stop is requested
while item `k` is in flight (and not earlier), items `0, …, k` are the only
ones started (so item `k` completes and `k + 1` is never started), exactly
one success or failure is recorded per started item, the inter-item delay
after item `k` is skipped (sleeps happen only after items `0, …, k - 1`),
and the downstream resume-builder phase is never entered. -/
theorem claim_C3_stop_at_boundaries (env : Env) (jobs : List RawJob) (k : Nat)
    (s : St) (h1 : s.stopRequested = false) (h2 : s.isProcessing = false)
    (hk : k < jobs.length) (hb : ∀ j, j < k → env.stopDuring j = false)
    (hs : env.stopDuring k = true) :
    startedOf (runLoop env jobs 0 s).2 = List.range (k + 1) ∧
    sleptOf (runLoop env jobs 0 s).2 = List.range k ∧
    Ev.phase2 ∉ (runLoop env jobs 0 s).2 ∧
    (runLoop env jobs 0 s).1.processedCount + (runLoop env jobs 0 s).1.failedCount
      = s.processedCount + s.failedCount + (k + 1) := by
  have h := runLoop_stop_at env jobs k 0 s h1 h2 hk (by simpa using hb)
    (by simpa using hs)
  simpa using h

/-- Witness for C3: stop arrives during item 0 of a two-item queue. -/
theorem claim_C3_witness :
    startedOf (runLoop envC3 jobs2 0 st0).2 = List.range 1 ∧
    sleptOf (runLoop envC3 jobs2 0 st0).2 = List.range 0 ∧
    Ev.phase2 ∉ (runLoop envC3 jobs2 0 st0).2 ∧
    (runLoop envC3 jobs2 0 st0).1.processedCount
        + (runLoop envC3 jobs2 0 st0).1.failedCount
      = st0.processedCount + st0.failedCount + 1 :=
  claim_C3_stop_at_boundaries envC3 jobs2 0 st0 rfl rfl (by decide)
    (fun j hj => absurd hj (Nat.not_lt_zero j)) rfl

/-- C5 counterexample: with every submission attempt for item 0 failing,
the flow completes without error, the record is persisted and remains,
and the console warning fires (`apiWarn`), but the status channel carries
no error-level update about the submission — it reports the item as
`✅ Done` — refuting the claim that the error is reported via the status
channel. -/
theorem claim_C5_counterexample :
    Ev.apiWarn 0 ∈ (processJobFlow envC5 0 "jid" job1 st0).evs ∧
    (processJobFlow envC5 0 "jid" job1 st0).st.scrapedJobs.length = 1 ∧
    itemStatusUpdates envC5 0 "jid" job1 st0 =
      [.processing 0, .simulating 0, .openingPage 0, .extractingEmail 0,
        .doneOk 0] ∧
    (itemStatusUpdates envC5 0 "jid" job1 st0).map StatusUpdate.isError =
      [false, false, false, false, false] := by decide

/-- C5 amended: submission-failure atomicity and isolation — when every
attempt is exhausted `sendJobToAPI` returns `{success: false}` instead of
throwing; in the flow, the merged record is written to local storage
before the submission and remains there, the flow finishes without error,
and the run proceeds to the next item (concretely: with the API failing
on item 0, both items are still started and counted as successes). The
failure, however, is only logged to the console (`apiWarn`, a
`log('WARN', …)`): the status channel (`broadcastStatus` →
`MSG.STATUS_UPDATE`) carries no error update for the submission and
instead reports the item as `✅ Done`. -/
theorem claim_C5_submission_failure :
    (∀ {α : Type} (fn : Nat → Except String α) (e1 e2 e3 : String),
      fn 1 = .error e1 → fn 2 = .error e2 → fn 3 = .error e3 →
      sendJobToAPIModel fn = ⟨false, some e3⟩) ∧
    (∀ (env : Env) (i : Nat) (jobId : String) (job : RawJob) (s : St)
      (pd : PopupData),
      env.simulateOk i = true → env.popupResult i = .ok pd →
      pd.viewFullPostUrl ≠ "" → env.tabCreateOk i = true →
      env.tabLoadOk i = true → env.apiOk i = false →
      processJobFlow env i jobId job s =
        ⟨{ s with
            openTabs := (s.openTabs ++ [i]).filter (fun t => t ≠ i)
            scrapedJobs := s.scrapedJobs.filter (fun j => j.jobId ≠ jobId) ++
              [mergedPayload jobId job pd ((env.externalResult i).getD emptyExternal)
                (emailOf env i)] }, none,
          [.createdTab i, .closeAttempt i, .persisted i, .submitted i false,
            .apiWarn i]⟩) ∧
    (∀ (env : Env) (i : Nat) (jobId : String) (job : RawJob) (s : St)
      (pd : PopupData),
      env.simulateOk i = true → env.popupResult i = .ok pd →
      pd.viewFullPostUrl ≠ "" → env.tabCreateOk i = true →
      env.tabLoadOk i = true → env.apiOk i = false → s.isProcessing = false →
      itemStatusUpdates env i jobId job s =
        [.processing i, .simulating i, .openingPage i, .extractingEmail i,
          .doneOk i]) ∧
    (startedOf (runQueue envC5 stQueue2).2 = [0, 1] ∧
      (runQueue envC5 stQueue2).1.processedCount = 2) := by
  refine ⟨?_, ?_, ?_, ?_⟩
  · intro α fn e1 e2 e3 h1 h2 h3
    unfold sendJobToAPIModel
    rw [retryModel_exhaust fn e1 e2 e3 h1 h2 h3]
  · intro env i jobId job s pd hsm hp hu hc hl ha
    simp [processJobFlow, hsm, hp, hu, hc, hl, ha]
  · intro env i jobId job s pd hsm hp hu hc hl ha hpr
    simp [itemStatusUpdates, flowStatusUpdates, processSingleJob, processJobFlow,
      hsm, hp, hu, hc, hl, hpr]
  · constructor <;> decide

/-- Witness for C5: a concrete always-failing submission, and a concrete
flow whose API call fails yet whose status-channel traffic ends in the
`✅ Done` update with no error-level broadcast. -/
theorem claim_C5_witness :
    sendJobToAPIModel (fun _ => (Except.error "boom" : Except String Unit))
        = ⟨false, some "boom"⟩ ∧
    processJobFlow envC5 0 "jid" job1 st0 =
      ⟨{ st0 with
          openTabs := (st0.openTabs ++ [0]).filter (fun t => t ≠ 0)
          scrapedJobs := st0.scrapedJobs.filter (fun j => j.jobId ≠ "jid") ++
            [mergedPayload "jid" job1 pd1 ((envC5.externalResult 0).getD emptyExternal)
              (emailOf envC5 0)] }, none,
        [.createdTab 0, .closeAttempt 0, .persisted 0, .submitted 0 false,
          .apiWarn 0]⟩ ∧
    itemStatusUpdates envC5 0 "jid" job1 st0 =
      [.processing 0, .simulating 0, .openingPage 0, .extractingEmail 0,
        .doneOk 0] :=
  ⟨claim_C5_submission_failure.1 _ "boom" "boom" "boom" rfl rfl rfl,
    claim_C5_submission_failure.2.1 envC5 0 "jid" job1 st0 pd1 rfl rfl
      (by decide) rfl rfl rfl,
    claim_C5_submission_failure.2.2.1 envC5 0 "jid" job1 st0 pd1 rfl rfl
      (by decide) rfl rfl rfl rfl⟩

/-- C6: a missing target URL is a per-item failure only — any item whose
popup data has an empty `viewFullPostUrl` fails with the missing-field
error and changes nothing else; in the two-item scenario (item 0 succeeds
end-to-end, item 1 has no URL) the final state has one success, one
failure, a drained queue and exactly one persisted record. -/
theorem claim_C6_missing_required_field :
    (∀ (env : Env) (i : Nat) (jobId : String) (job : RawJob) (s : St)
      (pd : PopupData),
      env.simulateOk i = true → env.popupResult i = .ok pd →
      pd.viewFullPostUrl = "" →
      processJobFlow env i jobId job s =
        ⟨s, some "No View Full Post URL found in popup", []⟩) ∧
    ((handleStartQueue envC6 st0).1.processedCount = 1 ∧
      (handleStartQueue envC6 st0).1.failedCount = 1 ∧
      (handleStartQueue envC6 st0).1.queue = [] ∧
      (handleStartQueue envC6 st0).1.scrapedJobs.length = 1) := by
  constructor
  · intro env i jobId job s pd hsm hp hu
    simp [processJobFlow, hsm, hp, hu]
  · refine ⟨?_, ?_, ?_, ?_⟩ <;> decide

/-- Witness for C6: item 1 of the two-item scenario fails with exactly the
missing-field error. -/
theorem claim_C6_witness :
    processJobFlow envC6 1 "jid" job2 st0 =
      ⟨st0, some "No View Full Post URL found in popup", []⟩ :=
  claim_C6_missing_required_field.1 envC6 1 "jid" job2 st0 pd2 rfl rfl rfl

/-- C7 counterexample: when auxiliary extraction fails the persisted
record's `applyEmail` field is the string `not-provided`, not the empty
string — refuting the claim that all four auxiliary fields are empty. -/
theorem claim_C7_counterexample :
    (processJobFlow envC7 0 "jid" job1 st0).st.scrapedJobs.map
        (fun p => p.applyEmail) = ["not-provided"] ∧
    ¬ ("not-provided" : String) = "" := by decide

/-- C7 amended: for every item whose auxiliary extraction fails, times out
or returns an empty result, the item still completes without error — the
merged record's `fullDescription`, `location` and `experience` are empty
strings, its `applyEmail` defaults to `"not-provided"`, and the record is
still persisted to local storage and submitted to the backend. -/
theorem claim_C7_degradable_aux_failure (env : Env) (i : Nat) (jobId : String)
    (job : RawJob) (s : St) (pd : PopupData)
    (hsm : env.simulateOk i = true) (hp : env.popupResult i = .ok pd)
    (hu : pd.viewFullPostUrl ≠ "") (hc : env.tabCreateOk i = true)
    (hl : env.tabLoadOk i = true) (hx : env.externalResult i = none) :
    (processJobFlow env i jobId job s).err = none ∧
    (processJobFlow env i jobId job s).st.scrapedJobs
      = s.scrapedJobs.filter (fun j => j.jobId ≠ jobId) ++
        [mergedPayload jobId job pd emptyExternal (emailOf env i)] ∧
    (mergedPayload jobId job pd emptyExternal (emailOf env i)).fullDescription = "" ∧
    (mergedPayload jobId job pd emptyExternal (emailOf env i)).location = "" ∧
    (mergedPayload jobId job pd emptyExternal (emailOf env i)).experience = "" ∧
    (mergedPayload jobId job pd emptyExternal (emailOf env i)).applyEmail
      = "not-provided" ∧
    Ev.submitted i (env.apiOk i) ∈ (processJobFlow env i jobId job s).evs := by
  refine ⟨?_, ?_, ?_, ?_, ?_, ?_, ?_⟩
  · simp [processJobFlow, hsm, hp, hu, hc, hl, hx]
  · simp [processJobFlow, hsm, hp, hu, hc, hl, hx]
  · simp [mergedPayload, jsOr, emptyExternal]
  · simp [mergedPayload, jsOr, emptyExternal]
  · simp [mergedPayload, jsOr, emptyExternal]
  · simp [mergedPayload, jsOr, emptyExternal]
  · simp [processJobFlow, hsm, hp, hu, hc, hl, hx]

/-- Witness for C7 at a concrete environment with failing extraction. -/
theorem claim_C7_witness :
    (processJobFlow envC7 0 "jid" job1 st0).err = none ∧
    (processJobFlow envC7 0 "jid" job1 st0).st.scrapedJobs
      = st0.scrapedJobs.filter (fun j => j.jobId ≠ "jid") ++
        [mergedPayload "jid" job1 pd1 emptyExternal (emailOf envC7 0)] ∧
    (mergedPayload "jid" job1 pd1 emptyExternal (emailOf envC7 0)).fullDescription = "" ∧
    (mergedPayload "jid" job1 pd1 emptyExternal (emailOf envC7 0)).location = "" ∧
    (mergedPayload "jid" job1 pd1 emptyExternal (emailOf envC7 0)).experience = "" ∧
    (mergedPayload "jid" job1 pd1 emptyExternal (emailOf envC7 0)).applyEmail
      = "not-provided" ∧
    Ev.submitted 0 (envC7.apiOk 0) ∈ (processJobFlow envC7 0 "jid" job1 st0).evs :=
  claim_C7_degradable_aux_failure envC7 0 "jid" job1 st0 pd1 rfl rfl
    (by decide) rfl rfl rfl

/-- C8 counterexample: an auxiliary tab is created but its load wait times
out — the flow throws without ever attempting to close the tab, which is
still open when the item ends; so a created context can leak past the item
boundary, refuting the claim for every created context. -/
theorem claim_C8_counterexample :
    (processJobFlow envC8 0 "jid" job1 st0).evs = [Ev.createdTab 0] ∧
    Ev.closeAttempt 0 ∉ (processJobFlow envC8 0 "jid" job1 st0).evs ∧
    (processJobFlow envC8 0 "jid" job1 st0).st.openTabs = [0] := by decide

/-- C8 amended: for every item that reaches the extraction step (tab
created and load completed), closing the tab is attempted in the cleanup
step regardless of the extraction's outcome, and the tab is removed from
the open set before the item ends; a tab whose load wait times out after
creation, however, is not closed. -/
theorem claim_C8_tab_cleanup (env : Env) (i : Nat) (jobId : String)
    (job : RawJob) (s : St) (pd : PopupData)
    (hsm : env.simulateOk i = true) (hp : env.popupResult i = .ok pd)
    (hu : pd.viewFullPostUrl ≠ "") (hc : env.tabCreateOk i = true)
    (hl : env.tabLoadOk i = true) :
    Ev.closeAttempt i ∈ (processJobFlow env i jobId job s).evs ∧
    (processJobFlow env i jobId job s).st.openTabs
      = s.openTabs.filter (fun t => t ≠ i) := by
  constructor
  · simp [processJobFlow, hsm, hp, hu, hc, hl]
  · simp [processJobFlow, hsm, hp, hu, hc, hl, List.filter_append]

/-- Witness for C8 at a concrete environment where extraction succeeds. -/
theorem claim_C8_witness :
    Ev.closeAttempt 0 ∈ (processJobFlow envBase 0 "jid" job1 st0).evs ∧
    (processJobFlow envBase 0 "jid" job1 st0).st.openTabs
      = st0.openTabs.filter (fun t => t ≠ 0) :=
  claim_C8_tab_cleanup envBase 0 "jid" job1 st0 pd1 rfl rfl (by decide) rfl rfl

end RecruitPulse
